import Mathlib

/-!
Verification of the water-quality index calculation engine
(calculations/hpi.py, hei.py, mi.py, cdeg.py, wqi.py, pig.py and
utils/unit_converter.py).

Embedding choices:
* Python floats are embedded as rationals (`Rat`); every arithmetic
  operation used by the engine (+, -, *, /) is exact on the inputs the
  formulas guard for, and all divisions in the source are guarded, so no
  IEEE artifact (inf/NaN produced by arithmetic) can arise.
* A Python dict is a `List (String × _)` looked up with `List.lookup`
  (dict keys are unique and iteration order is insertion order).
* A raised exception is an `Except.error`; functions that cannot raise
  are total.
* A dict value, as seen by the index functions, is `Val`: `vnone` is
  Python `None`, `vnum q` a value on which `float` succeeds with result
  `q`, `vbad` a value on which `float` raises `ValueError`/`TypeError`.
  The raw rows fed to the unit converter use `RVal`, which additionally
  has the distinguished token `rnan` for a float NaN, because
  `convert_row_to_ppb` tests for NaN syntactically (`value != value`)
  before any arithmetic; rows reaching the index functions have had NaN
  entries dropped by normalization.
-/

/-- One BIS standard entry: fields `symbol`, `Ii` (ideal value),
`Si` (permissible limit) and `category`. -/
structure Standard where
  symbol : String
  Ii : Rat
  Si : Rat
  category : String
deriving DecidableEq

/-- A Python dict value as seen by the index functions: `None`, a numeric
value, or a value on which `float` raises. -/
inductive Val where
  | vnone : Val
  | vnum : Rat → Val
  | vbad : Val
deriving DecidableEq

/-- A data row (Python dict from parameter symbol to value). -/
abbrev Row := List (String × Val)

/-- Shared lookup discipline of every index loop: `symbol not in data_row
or data_row[symbol] is None` means `continue`, and a `float` failure on
the value is caught and also means `continue`; so the loop body runs with
a numeric `vi` exactly when `rowVal` is `some vi`. -/
def rowVal (row : Row) (symbol : String) : Option Rat :=
  match row.lookup symbol with
  | some (Val.vnum q) => some q
  | _ => none

/-- A raw dict value fed to `convert_row_to_ppb`: like `Val` but with a
distinguished NaN token (see module comment). -/
inductive RVal where
  | rnone : RVal
  | rnum : Rat → RVal
  | rnan : RVal
  | rbad : RVal
deriving DecidableEq

/-- Python str.strip(): remove leading and trailing whitespace. Stated
structurally over the character list so that it evaluates by reduction. -/
def pyStrip (s : String) : String :=
  String.mk (((s.data.dropWhile Char.isWhitespace).reverse.dropWhile
    Char.isWhitespace).reverse)

/-- CONVERSION_FACTORS from utils/unit_converter.py: factors into ppb. -/
def CONVERSION_FACTORS : List (String × Rat) :=
  [("mg/L", 1000), ("ppm", 1000), ("µg/L", 1), ("ug/L", 1), ("ppb", 1)]

/-- convert_to_ppb from utils/unit_converter.py: strip the unit string,
fail on an unrecognized unit, otherwise multiply by the factor. -/
def convert_to_ppb (value : Rat) (input_unit : String) : Except String Rat :=
  let unit := pyStrip input_unit
  match CONVERSION_FACTORS.lookup unit with
  | none => Except.error ("Invalid unit: " ++ unit)
  | some conversion_factor => Except.ok (value * conversion_factor)

/-- Loop body of convert_row_to_ppb: skip excluded keys, skip `None` and
NaN values, then `try: float(value); convert_to_ppb(...)` with
`ValueError`/`TypeError` caught (so both a non-numeric value and an
invalid-unit error from `convert_to_ppb` fall to `continue`). -/
def convRowStep (input_unit : String) (exclude_columns : List String)
    (converted : List (String × Rat)) (kv : String × RVal) :
    List (String × Rat) :=
  if kv.1 ∈ exclude_columns then converted
  else
    match kv.2 with
    | RVal.rnone => converted
    | RVal.rnan => converted
    | RVal.rbad => converted
    | RVal.rnum numeric_value =>
      match convert_to_ppb numeric_value input_unit with
      | Except.ok c => converted ++ [(kv.1, c)]
      | Except.error _ => converted

/-- convert_row_to_ppb from utils/unit_converter.py: fold the loop body
over the row, building the `converted` dict. -/
def convert_row_to_ppb (data_row : List (String × RVal)) (input_unit : String)
    (exclude_columns : List String) : List (String × Rat) :=
  data_row.foldl (convRowStep input_unit exclude_columns) []

/-- Category test used by hpi.py, hei.py and cdeg.py. -/
def isHeavyMetal (s : Standard) : Bool :=
  s.category == "heavy_metal"

/-- Category test used by mi.py: category in the pair heavy_metal,
metal. -/
def isAnyMetal (s : Standard) : Bool :=
  s.category == "heavy_metal" || s.category == "metal"

/-- Loop body of calculate_hpi: with the observed value `vi` in hand,
`wi = si / total_si`, `qi` by the guarded sub-index rule, and the pair
accumulates `(hpi_sum + wi * qi, weight_sum + wi)`. -/
def hpiStep (row : Row) (total_si : Rat) (acc : Rat × Rat)
    (metal : Standard) : Rat × Rat :=
  match rowVal row metal.symbol with
  | some vi =>
    let wi := metal.Si / total_si
    let qi :=
      if metal.Si - metal.Ii ≠ 0 then ((vi - metal.Ii) / (metal.Si - metal.Ii)) * 100
      else if 0 < metal.Si then (vi / metal.Si) * 100 else 0
    (acc.1 + wi * qi, acc.2 + wi)
  | none => acc

/-- calculate_hpi from calculations/hpi.py. -/
def calculate_hpi (data_row : Row) (standards : List Standard) : Rat :=
  let heavy_metals := standards.filter isHeavyMetal
  if heavy_metals = [] then 0
  else
    let total_si := ((heavy_metals.filter fun s => decide (0 < s.Si)).map
      Standard.Si).sum
    if total_si = 0 then 0
    else
      let s := heavy_metals.foldl (hpiStep data_row total_si) (0, 0)
      if s.2 = 0 then 0 else s.1 / s.2

/-- Loop body of calculate_hei: add `vi / si` when `si > 0`, skip
otherwise. -/
def heiStep (row : Row) (hei : Rat) (metal : Standard) : Rat :=
  match rowVal row metal.symbol with
  | some vi => if 0 < metal.Si then hei + vi / metal.Si else hei
  | none => hei

/-- calculate_hei from calculations/hei.py. -/
def calculate_hei (data_row : Row) (standards : List Standard) : Rat :=
  let heavy_metals := standards.filter isHeavyMetal
  if heavy_metals = [] then 0
  else heavy_metals.foldl (heiStep data_row) 0

/-- get_hei_classification from calculations/hei.py. -/
def get_hei_classification (hei : Rat) : String :=
  if hei < 10 then "Low contamination"
  else if hei < 20 then "Medium contamination"
  else "High contamination"

/-- Loop body of calculate_cdeg: add `(vi / si) - 1` when `si > 0`, skip
otherwise. -/
def cdegStep (row : Row) (cdeg : Rat) (metal : Standard) : Rat :=
  match rowVal row metal.symbol with
  | some vi => if 0 < metal.Si then cdeg + ((vi / metal.Si) - 1) else cdeg
  | none => cdeg

/-- calculate_cdeg from calculations/cdeg.py. -/
def calculate_cdeg (data_row : Row) (standards : List Standard) : Rat :=
  let heavy_metals := standards.filter isHeavyMetal
  if heavy_metals = [] then 0
  else heavy_metals.foldl (cdegStep data_row) 0

/-- Loop body of calculate_mi: add `vi / si` to the running sum and bump
the count when `si > 0`, skip otherwise. -/
def miStep (row : Row) (acc : Rat × Nat) (metal : Standard) : Rat × Nat :=
  match rowVal row metal.symbol with
  | some vi =>
    if 0 < metal.Si then (acc.1 + vi / metal.Si, acc.2 + 1) else acc
  | none => acc

/-- calculate_mi from calculations/mi.py. -/
def calculate_mi (data_row : Row) (standards : List Standard) : Rat :=
  let all_metals := standards.filter isAnyMetal
  if all_metals = [] then 0
  else
    let s := all_metals.foldl (miStep data_row) (0, 0)
    if s.2 = 0 then 0 else s.1 / (s.2 : Rat)

/-- Loop body of calculate_wqi: with `wi = k / si` and `qi` by the same
guarded quality-rating rule as HPI. -/
def wqiStep (row : Row) (k : Rat) (acc : Rat × Rat)
    (param : Standard) : Rat × Rat :=
  match rowVal row param.symbol with
  | some vi =>
    let wi := k / param.Si
    let qi :=
      if param.Si - param.Ii ≠ 0 then ((vi - param.Ii) / (param.Si - param.Ii)) * 100
      else if 0 < param.Si then (vi / param.Si) * 100 else 0
    (acc.1 + wi * qi, acc.2 + wi)
  | none => acc

/-- calculate_wqi from calculations/wqi.py. -/
def calculate_wqi (data_row : Row) (standards : List Standard) : Rat :=
  if standards = [] then 0
  else
    let valid_standards := standards.filter fun s => decide (0 < s.Si)
    if valid_standards = [] then 0
    else
      let sum_inverse_si := (valid_standards.map fun s => 1 / s.Si).sum
      if sum_inverse_si = 0 then 0
      else
        let s := valid_standards.foldl
          (wqiStep data_row (1 / sum_inverse_si)) (0, 0)
        if s.2 = 0 then 0 else s.1 / s.2

/-- calculate_pig from calculations/pig.py: `None` in either argument
gives 0.0, otherwise the composite formula over real square roots. -/
noncomputable def calculate_pig (hpi hei : Option Rat) : Real :=
  match hpi, hei with
  | some h, some e =>
    Real.sqrt (((h : Real) / 100) ^ 2 + (e : Real) ^ 2) / Real.sqrt 2
  | _, _ => 0

/-! Spec-side definitions. Each `...FromSpec` definition follows the
wording of the specification (closed-form sums over the filtered
standards), to be compared with the loop-based code embeddings above. -/

/-- Sub-index / quality-rating rule as the spec words it:
`Qi = ((Vi − Ii) / (Si − Ii)) × 100` when `Si ≠ Ii`, else
`Qi = (Vi / Si) × 100` if `Si > 0` else `0`. -/
def qRating (m : Standard) (vi : Rat) : Rat :=
  if m.Si ≠ m.Ii then ((vi - m.Ii) / (m.Si - m.Ii)) * 100
  else if 0 < m.Si then (vi / m.Si) * 100 else 0

/-- Weighted sub-index contribution `Wi * Qi` of one heavy metal to the
HPI numerator; 0 when the reading is unusable. -/
def hpiContribWQ (row : Row) (total_si : Rat) (m : Standard) : Rat :=
  match rowVal row m.symbol with
  | some vi => (m.Si / total_si) * qRating m vi
  | none => 0

/-- Weight contribution `Wi` of one heavy metal to the HPI denominator;
0 when the reading is unusable. -/
def hpiContribW (row : Row) (total_si : Rat) (m : Standard) : Rat :=
  match rowVal row m.symbol with
  | some _ => m.Si / total_si
  | none => 0

/-- HPI as the spec words it: `totalSi` over heavy metals with `Si > 0`;
0 on no heavy metals or zero `totalSi`; else `Σ(Wi·Qi)/ΣWi`, 0 when
`ΣWi = 0`. -/
def hpiFromSpec (row : Row) (standards : List Standard) : Rat :=
  let hm := standards.filter isHeavyMetal
  let totalSi := ((hm.filter fun s => decide (0 < s.Si)).map Standard.Si).sum
  let sumW := (hm.map (hpiContribW row totalSi)).sum
  let sumWQ := (hm.map (hpiContribWQ row totalSi)).sum
  if hm = [] then 0
  else if totalSi = 0 then 0
  else if sumW = 0 then 0
  else sumWQ / sumW

/-- Contribution `Vi / Si` of one heavy metal to HEI; 0 when the reading
is unusable or `Si = 0`. -/
def heiContrib (row : Row) (m : Standard) : Rat :=
  match rowVal row m.symbol with
  | some vi => if 0 < m.Si then vi / m.Si else 0
  | none => 0

/-- HEI as the spec words it: `Σ(Vi/Si)` over heavy metals with `Si > 0`
and a usable reading. -/
def heiFromSpec (row : Row) (standards : List Standard) : Rat :=
  ((standards.filter isHeavyMetal).map (heiContrib row)).sum

/-- Contribution `(Vi / Si) − 1` of one heavy metal to Cdeg; 0 when the
reading is unusable or `Si = 0`. -/
def cdegContrib (row : Row) (m : Standard) : Rat :=
  match rowVal row m.symbol with
  | some vi => if 0 < m.Si then (vi / m.Si) - 1 else 0
  | none => 0

/-- Cdeg as the spec words it: `Σ((Vi/Si) − 1)` over heavy metals with
`Si > 0` and a usable reading. -/
def cdegFromSpec (row : Row) (standards : List Standard) : Rat :=
  ((standards.filter isHeavyMetal).map (cdegContrib row)).sum

/-- Contribution `Vi / Si` of one metal to the MI numerator; 0 when the
reading is unusable or `Si = 0`. -/
def miContrib (row : Row) (m : Standard) : Rat :=
  match rowVal row m.symbol with
  | some vi => if 0 < m.Si then vi / m.Si else 0
  | none => 0

/-- Contribution of one metal to the MI count `n`: 1 when it actually
contributes, 0 otherwise. -/
def miCount (row : Row) (m : Standard) : Nat :=
  match rowVal row m.symbol with
  | some _ => if 0 < m.Si then 1 else 0
  | none => 0

/-- MI as the spec words it: `(Σ Vi/Si) / n` over metals of category
heavy_metal or metal, `n` the count of contributing metals, 0 when
`n = 0`. -/
def miFromSpec (row : Row) (standards : List Standard) : Rat :=
  let mets := standards.filter isAnyMetal
  let n := (mets.map (miCount row)).sum
  if n = 0 then 0 else (mets.map (miContrib row)).sum / (n : Rat)

/-- Weighted quality contribution `Wi * qi` of one eligible standard to
the WQI numerator; 0 when the reading is unusable. -/
def wqiContribWQ (row : Row) (k : Rat) (m : Standard) : Rat :=
  match rowVal row m.symbol with
  | some vi => (k / m.Si) * qRating m vi
  | none => 0

/-- Weight contribution `Wi = k / Si` of one eligible standard to the
WQI denominator; 0 when the reading is unusable. -/
def wqiContribW (row : Row) (k : Rat) (m : Standard) : Rat :=
  match rowVal row m.symbol with
  | some _ => k / m.Si
  | none => 0

/-- WQI as the spec words it: eligible standards are those with
`Si > 0`; `k = 1/Σ(1/Si)`; fails closed to 0 on empty standards, no
eligible standard, zero inverse sum, or `ΣWi = 0`. -/
def wqiFromSpec (row : Row) (standards : List Standard) : Rat :=
  let eligible := standards.filter fun s => decide (0 < s.Si)
  let sumInv := (eligible.map fun s => 1 / s.Si).sum
  let sumW := (eligible.map (wqiContribW row (1 / sumInv))).sum
  let sumWQ := (eligible.map (wqiContribWQ row (1 / sumInv))).sum
  if standards = [] then 0
  else if eligible = [] then 0
  else if sumInv = 0 then 0
  else if sumW = 0 then 0
  else sumWQ / sumW

/-! Loop-to-sum lemmas: each accumulation loop of the engine is a fold
whose step adds a per-standard contribution, so it equals the sum of the
contributions. -/

/-- A fold whose step adds `F x` equals the initial value plus the sum of
the contributions. -/
theorem foldl_add_eq {α : Type} (F : α → Rat) (step : Rat → α → Rat)
    (hstep : ∀ acc x, step acc x = acc + F x) :
    ∀ (l : List α) (a : Rat), l.foldl step a = a + (l.map F).sum := by
  intro l
  induction l with
  | nil => intro a; simp
  | cons x xs ih =>
    intro a
    rw [List.foldl_cons, hstep, List.map_cons, List.sum_cons, ih, add_assoc]

/-- A fold of rational pairs whose step adds `(F x, G x)` componentwise
equals the initial pair plus the componentwise sums. -/
theorem foldl_pair_eq {α : Type} (F G : α → Rat) (step : Rat × Rat → α → Rat × Rat)
    (hstep : ∀ acc x, step acc x = (acc.1 + F x, acc.2 + G x)) :
    ∀ (l : List α) (a b : Rat),
      l.foldl step (a, b) = (a + (l.map F).sum, b + (l.map G).sum) := by
  intro l
  induction l with
  | nil => intro a b; simp
  | cons x xs ih =>
    intro a b
    rw [List.foldl_cons, hstep, List.map_cons, List.map_cons, List.sum_cons,
      List.sum_cons]
    rw [show ((a, b) : Rat × Rat).1 = a from rfl, show ((a, b) : Rat × Rat).2 = b from rfl]
    rw [ih, add_assoc, add_assoc]

/-- A fold of a rational sum and a natural count whose step adds
`(F x, G x)` componentwise equals the initial pair plus the
componentwise sums. -/
theorem foldl_pairN_eq {α : Type} (F : α → Rat) (G : α → Nat)
    (step : Rat × Nat → α → Rat × Nat)
    (hstep : ∀ acc x, step acc x = (acc.1 + F x, acc.2 + G x)) :
    ∀ (l : List α) (a : Rat) (n : Nat),
      l.foldl step (a, n) = (a + (l.map F).sum, n + (l.map G).sum) := by
  intro l
  induction l with
  | nil => intro a n; simp
  | cons x xs ih =>
    intro a n
    rw [List.foldl_cons, hstep, List.map_cons, List.map_cons, List.sum_cons,
      List.sum_cons]
    rw [show ((a, n) : Rat × Nat).1 = a from rfl, show ((a, n) : Rat × Nat).2 = n from rfl]
    rw [ih, add_assoc, Nat.add_assoc]

/-- The HPI loop body adds the spec-side contributions. -/
theorem hpiStep_eq (row : Row) (t : Rat) (acc : Rat × Rat) (m : Standard) :
    hpiStep row t acc m =
      (acc.1 + hpiContribWQ row t m, acc.2 + hpiContribW row t m) := by
  unfold hpiStep hpiContribWQ hpiContribW qRating
  cases h : rowVal row m.symbol with
  | none => simp [h]
  | some vi => simp [h, sub_ne_zero]

/-- The HEI loop body adds the spec-side contribution. -/
theorem heiStep_eq (row : Row) (acc : Rat) (m : Standard) :
    heiStep row acc m = acc + heiContrib row m := by
  unfold heiStep heiContrib
  cases h : rowVal row m.symbol with
  | none => simp [h]
  | some vi => by_cases hsi : 0 < m.Si <;> simp [h, hsi]

/-- The Cdeg loop body adds the spec-side contribution. -/
theorem cdegStep_eq (row : Row) (acc : Rat) (m : Standard) :
    cdegStep row acc m = acc + cdegContrib row m := by
  unfold cdegStep cdegContrib
  cases h : rowVal row m.symbol with
  | none => simp [h]
  | some vi => by_cases hsi : 0 < m.Si <;> simp [h, hsi]

/-- The MI loop body adds the spec-side contributions. -/
theorem miStep_eq (row : Row) (acc : Rat × Nat) (m : Standard) :
    miStep row acc m = (acc.1 + miContrib row m, acc.2 + miCount row m) := by
  unfold miStep miContrib miCount
  cases h : rowVal row m.symbol with
  | none => simp [h]
  | some vi => by_cases hsi : 0 < m.Si <;> simp [h, hsi]

/-- The WQI loop body adds the spec-side contributions. -/
theorem wqiStep_eq (row : Row) (k : Rat) (acc : Rat × Rat) (m : Standard) :
    wqiStep row k acc m =
      (acc.1 + wqiContribWQ row k m, acc.2 + wqiContribW row k m) := by
  unfold wqiStep wqiContribWQ wqiContribW qRating
  cases h : rowVal row m.symbol with
  | none => simp [h]
  | some vi => simp [h, sub_ne_zero]

/-- calculate_hpi agrees with the closed-form spec reading of HPI. -/
theorem calculate_hpi_eq (row : Row) (standards : List Standard) :
    calculate_hpi row standards = hpiFromSpec row standards := by
  simp only [calculate_hpi, hpiFromSpec]
  rw [foldl_pair_eq _ _ _ (hpiStep_eq row _), zero_add, zero_add]

/-- calculate_hei agrees with the closed-form spec reading of HEI. -/
theorem calculate_hei_eq (row : Row) (standards : List Standard) :
    calculate_hei row standards = heiFromSpec row standards := by
  simp only [calculate_hei, heiFromSpec]
  by_cases h1 : standards.filter isHeavyMetal = []
  · rw [if_pos h1, h1]; simp
  · rw [if_neg h1, foldl_add_eq _ _ (heiStep_eq row), zero_add]

/-- calculate_cdeg agrees with the closed-form spec reading of Cdeg. -/
theorem calculate_cdeg_eq (row : Row) (standards : List Standard) :
    calculate_cdeg row standards = cdegFromSpec row standards := by
  simp only [calculate_cdeg, cdegFromSpec]
  by_cases h1 : standards.filter isHeavyMetal = []
  · rw [if_pos h1, h1]; simp
  · rw [if_neg h1, foldl_add_eq _ _ (cdegStep_eq row), zero_add]

/-- calculate_mi agrees with the closed-form spec reading of MI. -/
theorem calculate_mi_eq (row : Row) (standards : List Standard) :
    calculate_mi row standards = miFromSpec row standards := by
  simp only [calculate_mi, miFromSpec]
  by_cases h1 : standards.filter isAnyMetal = []
  · rw [if_pos h1, h1]; simp
  · rw [if_neg h1, foldl_pairN_eq _ _ _ (miStep_eq row), zero_add,
      Nat.zero_add]

/-- calculate_wqi agrees with the closed-form spec reading of WQI. -/
theorem calculate_wqi_eq (row : Row) (standards : List Standard) :
    calculate_wqi row standards = wqiFromSpec row standards := by
  simp only [calculate_wqi, wqiFromSpec]
  rw [foldl_pair_eq _ _ _ (wqiStep_eq row _), zero_add, zero_add]

/-- The lookup into CONVERSION_FACTORS misses exactly when the key is
outside the five recognized unit tags. -/
theorem factors_lookup_none_iff (s : String) :
    CONVERSION_FACTORS.lookup s = none ↔
      s ∉ (["mg/L", "ppm", "µg/L", "ug/L", "ppb"] : List String) := by
  by_cases h1 : s = "mg/L"
  · subst h1; simp [CONVERSION_FACTORS, List.lookup]
  by_cases h2 : s = "ppm"
  · subst h2; simp [CONVERSION_FACTORS, List.lookup]
  by_cases h3 : s = "µg/L"
  · subst h3; simp [CONVERSION_FACTORS, List.lookup]
  by_cases h4 : s = "ug/L"
  · subst h4; simp [CONVERSION_FACTORS, List.lookup]
  by_cases h5 : s = "ppb"
  · subst h5; simp [CONVERSION_FACTORS, List.lookup]
  simp [CONVERSION_FACTORS, List.lookup, beq_eq_false_iff_ne.mpr h1,
    beq_eq_false_iff_ne.mpr h2, beq_eq_false_iff_ne.mpr h3,
    beq_eq_false_iff_ne.mpr h4, beq_eq_false_iff_ne.mpr h5,
    h1, h2, h3, h4, h5]

/-- CLAIM C3. convert_to_ppb errors exactly on a trimmed unit outside the
five recognized tags; recognized tags multiply by 1000 (mg/L, ppm) or 1
(µg/L, ug/L, ppb); and the three concrete examples from the spec hold. -/
theorem claim_C3 :
    (∀ (v : Rat) (u : String),
        (∃ msg, convert_to_ppb v u = Except.error msg) ↔
          pyStrip u ∉ (["mg/L", "ppm", "µg/L", "ug/L", "ppb"] : List String)) ∧
    (∀ (v : Rat) (u : String), pyStrip u = "mg/L" ∨ pyStrip u = "ppm" →
        convert_to_ppb v u = Except.ok (v * 1000)) ∧
    (∀ (v : Rat) (u : String),
        pyStrip u = "µg/L" ∨ pyStrip u = "ug/L" ∨ pyStrip u = "ppb" →
        convert_to_ppb v u = Except.ok (v * 1)) ∧
    convert_to_ppb 5 "mg/L" = Except.ok 5000 ∧
    convert_to_ppb 5 "ppb" = Except.ok 5 ∧
    (∃ msg, convert_to_ppb 5 "L" = Except.error msg) := by
  refine ⟨?_, ?_, ?_, ?_, ?_, ⟨"Invalid unit: L", by rfl⟩⟩
  · intro v u
    rw [← factors_lookup_none_iff]
    cases h : CONVERSION_FACTORS.lookup (pyStrip u) with
    | none => simp [convert_to_ppb, h]
    | some f => simp [convert_to_ppb, h]
  · rintro v u (h | h) <;>
      simp [convert_to_ppb, CONVERSION_FACTORS, List.lookup, h]
  · rintro v u (h | h | h) <;>
      simp [convert_to_ppb, CONVERSION_FACTORS, List.lookup, h]
  · have h : convert_to_ppb 5 "mg/L" = Except.ok ((5 : Rat) * 1000) := rfl
    rw [h]; norm_num
  · have h : convert_to_ppb 5 "ppb" = Except.ok ((5 : Rat) * 1) := rfl
    rw [h]; norm_num

/-- Witness for C3 at concrete inputs with surrounding whitespace. -/
theorem claim_C3_witness :
    convert_to_ppb 5 " mg/L " = Except.ok (5 * 1000) ∧
    convert_to_ppb 7 "ppb " = Except.ok (7 * 1) := by
  exact ⟨claim_C3.2.1 5 " mg/L " (Or.inl (by rfl)),
    claim_C3.2.2.1 7 "ppb " (Or.inr (Or.inr (by rfl)))⟩

/-- CLAIM C4 (code bug evidence). With the unrecognized unit "L" and a
row holding one numeric reading, convert_to_ppb does raise, but
convert_row_to_ppb silently returns the empty mapping: the invalid-unit
error is caught by the per-reading `except` clause and converted into
skips instead of propagating to the caller. -/
theorem claim_C4 :
    convert_row_to_ppb [("Pb", RVal.rnum 5)] "L" [] = [] ∧
    (∃ msg, convert_to_ppb 5 "L" = Except.error msg) := by
  exact ⟨by rfl, ⟨"Invalid unit: L", by rfl⟩⟩

/-- CLAIM C1. calculate_hpi computes exactly the HPI the spec describes:
heavy-metal filter, totalSi over metals with positive limits, weighted
sub-index sums, and the three degenerate 0.0 fallbacks. -/
theorem claim_C1 (row : Row) (standards : List Standard) :
    calculate_hpi row standards = hpiFromSpec row standards :=
  calculate_hpi_eq row standards

/-- CLAIM C2. calculate_wqi computes exactly the WQI the spec describes
(no category restriction, k from the inverse limits, fail-closed
fallbacks), and the worked example with two equal limits yields 150. -/
theorem claim_C2 :
    (∀ (row : Row) (standards : List Standard),
        calculate_wqi row standards = wqiFromSpec row standards) ∧
    calculate_wqi [("A", Val.vnum 10), ("B", Val.vnum 20)]
      [⟨"A", 0, 10, "other"⟩, ⟨"B", 0, 10, "other"⟩] = 150 := by
  refine ⟨calculate_wqi_eq, ?_⟩
  rw [calculate_wqi_eq]
  norm_num [wqiFromSpec, wqiContribWQ, wqiContribW, qRating, rowVal,
    List.lookup, List.filter, List.map, List.sum, List.cons_ne_nil,
    show (("B" == "A") : Bool) = false from rfl,
    show (("B" == "B") : Bool) = true from rfl]

/-- CLAIM C5. calculate_hei computes exactly the HEI the spec describes
(sum of Vi/Si over usable heavy metals, zero-limit metals skipped), the
worked Pb example yields exactly 1.0, and 1.0 classifies as low
contamination. -/
theorem claim_C5 :
    (∀ (row : Row) (standards : List Standard),
        calculate_hei row standards = heiFromSpec row standards) ∧
    calculate_hei [("Pb", Val.vnum 10)] [⟨"Pb", 0, 10, "heavy_metal"⟩] = 1 ∧
    get_hei_classification 1 = "Low contamination" := by
  refine ⟨calculate_hei_eq, ?_, ?_⟩
  · rw [calculate_hei_eq]
    norm_num [heiFromSpec, heiContrib, isHeavyMetal, rowVal,
      List.lookup, List.filter, List.map, List.sum]
  · norm_num [get_hei_classification]

/-- CLAIM C6. calculate_cdeg computes exactly the Cdeg the spec
describes, and the worked Pb example with a reading below the limit
yields exactly -0.5, showing the sum may be negative. -/
theorem claim_C6 :
    (∀ (row : Row) (standards : List Standard),
        calculate_cdeg row standards = cdegFromSpec row standards) ∧
    calculate_cdeg [("Pb", Val.vnum 5)]
      [⟨"Pb", 0, 10, "heavy_metal"⟩] = -(1 / 2) := by
  refine ⟨calculate_cdeg_eq, ?_⟩
  rw [calculate_cdeg_eq]
  norm_num [cdegFromSpec, cdegContrib, isHeavyMetal, rowVal,
    List.lookup, List.filter, List.map, List.sum]

/-- CLAIM C7. calculate_mi computes exactly the MI the spec describes:
the mean of Vi/Si over contributing metals of category heavy_metal or
metal, with the 0.0 fallback when none contribute. -/
theorem claim_C7 (row : Row) (standards : List Standard) :
    calculate_mi row standards = miFromSpec row standards :=
  calculate_mi_eq row standards

/-- CLAIM C8. calculate_pig is the stated composite formula of its two
scalar arguments, and a missing (None) argument on either side yields 0
rather than an error. -/
theorem claim_C8 :
    (∀ h e : Rat, calculate_pig (some h) (some e) =
      Real.sqrt (((h : Real) / 100) ^ 2 + (e : Real) ^ 2) / Real.sqrt 2) ∧
    (∀ x : Option Rat, calculate_pig none x = 0) ∧
    (∀ x : Option Rat, calculate_pig x none = 0) := by
  refine ⟨fun h e => rfl, fun x => ?_, fun x => ?_⟩
  · cases x <;> rfl
  · cases x <;> rfl

/-! Helpers for the zero-limit invariance claim: inserting a standard
with `Si = 0` in the middle of the standards list changes neither the
filtered views nor any contribution sum. -/

/-- Dropping a middle element that fails the filter predicate. -/
theorem filter_middle_of_neg {α : Type} (p : α → Bool) (pre post : List α)
    (s : α) (hp : p s = false) :
    (pre ++ s :: post).filter p = (pre ++ post).filter p := by
  rw [List.filter_append, List.filter_cons, if_neg (by simp [hp]),
    ← List.filter_append]

/-- Keeping a middle element that passes the filter predicate. -/
theorem filter_middle_of_pos {α : Type} (p : α → Bool) (pre post : List α)
    (s : α) (hp : p s = true) :
    (pre ++ s :: post).filter p = pre.filter p ++ s :: post.filter p := by
  rw [List.filter_append, List.filter_cons, if_pos hp]

/-- A middle element with zero contribution does not change the sum of
contributions over the filtered list. -/
theorem sum_map_filter_middle {α M : Type} [AddCommMonoid M] (p : α → Bool)
    (f : α → M) (pre post : List α) (s : α) (hz : f s = 0) :
    (((pre ++ s :: post).filter p).map f).sum
      = (((pre ++ post).filter p).map f).sum := by
  by_cases hp : p s = true
  · rw [List.filter_append, List.filter_cons, if_pos hp, List.map_append,
      List.map_cons, List.sum_append, List.sum_cons, hz, zero_add,
      ← List.sum_append, ← List.map_append, ← List.filter_append]
  · rw [filter_middle_of_neg p pre post s (Bool.eq_false_iff.mpr hp)]

/-- A zero-limit standard contributes no weight to HPI. -/
theorem hpiContribW_zero (row : Row) (t : Rat) (s : Standard)
    (hs : s.Si = 0) : hpiContribW row t s = 0 := by
  unfold hpiContribW
  cases h : rowVal row s.symbol <;> simp [hs]

/-- A zero-limit standard contributes no weighted sub-index to HPI. -/
theorem hpiContribWQ_zero (row : Row) (t : Rat) (s : Standard)
    (hs : s.Si = 0) : hpiContribWQ row t s = 0 := by
  unfold hpiContribWQ
  cases h : rowVal row s.symbol <;> simp [hs]

/-- A zero-limit standard contributes nothing to HEI. -/
theorem heiContrib_zero (row : Row) (s : Standard) (hs : s.Si = 0) :
    heiContrib row s = 0 := by
  unfold heiContrib
  cases h : rowVal row s.symbol <;> simp [hs]

/-- A zero-limit standard contributes nothing to Cdeg. -/
theorem cdegContrib_zero (row : Row) (s : Standard) (hs : s.Si = 0) :
    cdegContrib row s = 0 := by
  unfold cdegContrib
  cases h : rowVal row s.symbol <;> simp [hs]

/-- A zero-limit standard contributes nothing to the MI numerator. -/
theorem miContrib_zero (row : Row) (s : Standard) (hs : s.Si = 0) :
    miContrib row s = 0 := by
  unfold miContrib
  cases h : rowVal row s.symbol <;> simp [hs]

/-- A zero-limit standard is not counted by MI. -/
theorem miCount_zero (row : Row) (s : Standard) (hs : s.Si = 0) :
    miCount row s = 0 := by
  unfold miCount
  cases h : rowVal row s.symbol <;> simp [hs]

/-- Inserting a zero-limit standard does not change HPI. -/
theorem hpi_drop_zero (row : Row) (pre post : List Standard) (s : Standard)
    (hs : s.Si = 0) :
    calculate_hpi row (pre ++ s :: post) = calculate_hpi row (pre ++ post) := by
  rw [calculate_hpi_eq, calculate_hpi_eq]
  simp only [hpiFromSpec]
  have htot :
      ((((pre ++ s :: post).filter isHeavyMetal).filter
        fun x => decide (0 < x.Si)).map Standard.Si).sum
      = ((((pre ++ post).filter isHeavyMetal).filter
        fun x => decide (0 < x.Si)).map Standard.Si).sum := by
    rw [List.filter_filter, List.filter_filter]
    exact sum_map_filter_middle _ Standard.Si pre post s hs
  rw [htot]
  rw [sum_map_filter_middle isHeavyMetal (hpiContribW row _) pre post s
    (hpiContribW_zero row _ s hs)]
  rw [sum_map_filter_middle isHeavyMetal (hpiContribWQ row _) pre post s
    (hpiContribWQ_zero row _ s hs)]
  by_cases hp : isHeavyMetal s = true
  · rw [filter_middle_of_pos isHeavyMetal pre post s hp]
    rw [if_neg (List.append_ne_nil_of_right_ne_nil _
      (List.cons_ne_nil s (post.filter isHeavyMetal)))]
    by_cases hE : (pre ++ post).filter isHeavyMetal = []
    · rw [if_pos hE, hE]
      simp
    · rw [if_neg hE]
  · rw [filter_middle_of_neg isHeavyMetal pre post s
      (Bool.eq_false_iff.mpr hp)]

/-- Inserting a zero-limit standard does not change HEI. -/
theorem hei_drop_zero (row : Row) (pre post : List Standard) (s : Standard)
    (hs : s.Si = 0) :
    calculate_hei row (pre ++ s :: post) = calculate_hei row (pre ++ post) := by
  rw [calculate_hei_eq, calculate_hei_eq]
  unfold heiFromSpec
  exact sum_map_filter_middle isHeavyMetal (heiContrib row) pre post s
    (heiContrib_zero row s hs)

/-- Inserting a zero-limit standard does not change MI. -/
theorem mi_drop_zero (row : Row) (pre post : List Standard) (s : Standard)
    (hs : s.Si = 0) :
    calculate_mi row (pre ++ s :: post) = calculate_mi row (pre ++ post) := by
  rw [calculate_mi_eq, calculate_mi_eq]
  simp only [miFromSpec]
  rw [sum_map_filter_middle isAnyMetal (miContrib row) pre post s
    (miContrib_zero row s hs)]
  rw [sum_map_filter_middle isAnyMetal (miCount row) pre post s
    (miCount_zero row s hs)]

/-- Inserting a zero-limit standard does not change Cdeg. -/
theorem cdeg_drop_zero (row : Row) (pre post : List Standard) (s : Standard)
    (hs : s.Si = 0) :
    calculate_cdeg row (pre ++ s :: post) = calculate_cdeg row (pre ++ post) := by
  rw [calculate_cdeg_eq, calculate_cdeg_eq]
  unfold cdegFromSpec
  exact sum_map_filter_middle isHeavyMetal (cdegContrib row) pre post s
    (cdegContrib_zero row s hs)

/-- Inserting a zero-limit standard does not change WQI. -/
theorem wqi_drop_zero (row : Row) (pre post : List Standard) (s : Standard)
    (hs : s.Si = 0) :
    calculate_wqi row (pre ++ s :: post) = calculate_wqi row (pre ++ post) := by
  rw [calculate_wqi_eq, calculate_wqi_eq]
  simp only [wqiFromSpec]
  rw [filter_middle_of_neg (fun x => decide (0 < x.Si)) pre post s
    (by simp [hs])]
  rw [if_neg (by simp : pre ++ s :: post ≠ [])]
  by_cases hPP : pre ++ post = []
  · rw [if_pos hPP, hPP]
    simp
  · rw [if_neg hPP]

/-- CLAIM C9. A standard with permissible limit 0 contributes nothing to
any of the five indices: removing it from the standards list leaves every
result unchanged (and, the embedding being total, no division by zero is
ever performed — every division in the source is guarded). -/
theorem claim_C9 (row : Row) (pre post : List Standard) (s : Standard)
    (hs : s.Si = 0) :
    calculate_hpi row (pre ++ s :: post) = calculate_hpi row (pre ++ post) ∧
    calculate_hei row (pre ++ s :: post) = calculate_hei row (pre ++ post) ∧
    calculate_mi row (pre ++ s :: post) = calculate_mi row (pre ++ post) ∧
    calculate_cdeg row (pre ++ s :: post) = calculate_cdeg row (pre ++ post) ∧
    calculate_wqi row (pre ++ s :: post) = calculate_wqi row (pre ++ post) :=
  ⟨hpi_drop_zero row pre post s hs, hei_drop_zero row pre post s hs,
    mi_drop_zero row pre post s hs, cdeg_drop_zero row pre post s hs,
    wqi_drop_zero row pre post s hs⟩

/-- Witness for C9: a concrete zero-limit lead standard amid one normal
arsenic standard. -/
theorem claim_C9_witness :
    calculate_hpi [("Pb", Val.vnum 5), ("As", Val.vnum 7)]
        ([] ++ (⟨"Pb", 0, 0, "heavy_metal"⟩ : Standard) ::
          [⟨"As", 2, 10, "heavy_metal"⟩])
      = calculate_hpi [("Pb", Val.vnum 5), ("As", Val.vnum 7)]
        ([] ++ [⟨"As", 2, 10, "heavy_metal"⟩]) ∧
    calculate_hei [("Pb", Val.vnum 5), ("As", Val.vnum 7)]
        ([] ++ (⟨"Pb", 0, 0, "heavy_metal"⟩ : Standard) ::
          [⟨"As", 2, 10, "heavy_metal"⟩])
      = calculate_hei [("Pb", Val.vnum 5), ("As", Val.vnum 7)]
        ([] ++ [⟨"As", 2, 10, "heavy_metal"⟩]) ∧
    calculate_mi [("Pb", Val.vnum 5), ("As", Val.vnum 7)]
        ([] ++ (⟨"Pb", 0, 0, "heavy_metal"⟩ : Standard) ::
          [⟨"As", 2, 10, "heavy_metal"⟩])
      = calculate_mi [("Pb", Val.vnum 5), ("As", Val.vnum 7)]
        ([] ++ [⟨"As", 2, 10, "heavy_metal"⟩]) ∧
    calculate_cdeg [("Pb", Val.vnum 5), ("As", Val.vnum 7)]
        ([] ++ (⟨"Pb", 0, 0, "heavy_metal"⟩ : Standard) ::
          [⟨"As", 2, 10, "heavy_metal"⟩])
      = calculate_cdeg [("Pb", Val.vnum 5), ("As", Val.vnum 7)]
        ([] ++ [⟨"As", 2, 10, "heavy_metal"⟩]) ∧
    calculate_wqi [("Pb", Val.vnum 5), ("As", Val.vnum 7)]
        ([] ++ (⟨"Pb", 0, 0, "heavy_metal"⟩ : Standard) ::
          [⟨"As", 2, 10, "heavy_metal"⟩])
      = calculate_wqi [("Pb", Val.vnum 5), ("As", Val.vnum 7)]
        ([] ++ [⟨"As", 2, 10, "heavy_metal"⟩]) :=
  claim_C9 [("Pb", Val.vnum 5), ("As", Val.vnum 7)] []
    [⟨"As", 2, 10, "heavy_metal"⟩] ⟨"Pb", 0, 0, "heavy_metal"⟩ rfl

/-- Test for a raw value on which `float` succeeds (a numeric value). -/
def isNumR : RVal → Bool
  | RVal.rnum _ => true
  | _ => false

/-- The numeric value carried by a raw value (0 for non-numeric ones; only
used under `isNumR`). -/
def numOfR : RVal → Rat
  | RVal.rnum q => q
  | _ => 0

/-- With a recognized unit of factor `f`, the conversion loop appends to
its accumulator exactly the non-excluded numeric readings, each scaled by
`f`. -/
theorem convRow_foldl (u : String) (excl : List String) (f : Rat)
    (hu : CONVERSION_FACTORS.lookup (pyStrip u) = some f) :
    ∀ (l : List (String × RVal)) (acc : List (String × Rat)),
      l.foldl (convRowStep u excl) acc =
        acc ++ (l.filter fun kv => !(excl.contains kv.1) && isNumR kv.2).map
          fun kv => (kv.1, numOfR kv.2 * f) := by
  intro l
  induction l with
  | nil => intro acc; simp
  | cons kv t ih =>
    obtain ⟨k, v⟩ := kv
    intro acc
    rw [List.foldl_cons, ih, List.filter_cons]
    by_cases hex : k ∈ excl
    · have h1 : convRowStep u excl acc (k, v) = acc := by
        unfold convRowStep
        rw [if_pos hex]
      rw [h1, if_neg (by simp [hex])]
    · cases v with
      | rnum q =>
        have h1 : convRowStep u excl acc (k, RVal.rnum q)
            = acc ++ [(k, q * f)] := by
          unfold convRowStep
          rw [if_neg hex]
          simp only [convert_to_ppb, hu]
        rw [h1, if_pos (by simp [hex, isNumR])]
        simp [numOfR]
      | rnone =>
        have h1 : convRowStep u excl acc (k, RVal.rnone) = acc := by
          unfold convRowStep
          rw [if_neg hex]
        rw [h1, if_neg (by simp [isNumR])]
      | rnan =>
        have h1 : convRowStep u excl acc (k, RVal.rnan) = acc := by
          unfold convRowStep
          rw [if_neg hex]
        rw [h1, if_neg (by simp [isNumR])]
      | rbad =>
        have h1 : convRowStep u excl acc (k, RVal.rbad) = acc := by
          unfold convRowStep
          rw [if_neg hex]
        rw [h1, if_neg (by simp [isNumR])]

/-- CLAIM C10. For a recognized unit with factor `f`, convert_row_to_ppb
is exactly: keep the non-excluded keys whose value is numeric (dropping
missing, NaN and non-coercible values without aborting the rest), and map
each kept reading to its value times `f`. -/
theorem claim_C10 (row : List (String × RVal)) (u : String)
    (excl : List String) (f : Rat)
    (hu : CONVERSION_FACTORS.lookup (pyStrip u) = some f) :
    convert_row_to_ppb row u excl =
      (row.filter fun kv => !(excl.contains kv.1) && isNumR kv.2).map
        fun kv => (kv.1, numOfR kv.2 * f) := by
  unfold convert_row_to_ppb
  rw [convRow_foldl u excl f hu row []]
  simp

/-- Witness for C10: a mixed row under mg/L with one excluded key, one
missing value, one NaN and one non-numeric value. -/
theorem claim_C10_witness :
    convert_row_to_ppb [("Pb", RVal.rnum 2), ("loc", RVal.rnum 7),
      ("As", RVal.rnone), ("Cd", RVal.rbad), ("Hg", RVal.rnan),
      ("Fe", RVal.rnum 3)] "mg/L" ["loc"]
      = [("Pb", 2 * 1000), ("Fe", 3 * 1000)] := by
  rw [claim_C10 _ "mg/L" ["loc"] 1000 (by rfl)]
  rfl
